import Mathlib

/-!
Verification of the `one-euro-rs` crate (One Euro signal-smoothing filter).

The Rust code is generic over `T: RealField` and a const dimension `D`;
we embed it generically over a `LinearOrderedField α` and `D : Nat`,
passing the trait constant `T::two_pi()` explicitly as a parameter
`twoPi : α`.  Fixed-size vectors `SVector<T, D>` become `Fin D → α`.
Functions that may panic on invalid parameters return `Option`;
`OneEuroState::update`, which mutates `&mut self` in stages and may
panic between stages, returns `Except (OneEuroState α D) (OneEuroState α D)`
where the `error` branch carries the state as it stands at the panic
point (Rust's mutations before the panic persist in the borrowed state).
Methods taking `&self` cannot mutate the receiver; to state frame
properties, `OneEuroFilter.filter` returns the `(filter, state)` pair
after the call.
-/

namespace OneEuro

variable {α : Type} [LinearOrderedField α] {D : Nat}

/-- Embedding of `get_alpha_unchecked` from `src/alpha.rs`:
`(T::one() + rate / (T::two_pi() * cutoff)).recip()`. -/
def get_alpha_unchecked (twoPi rate cutoff : α) : α :=
  (1 + rate / (twoPi * cutoff))⁻¹

/-- Embedding of `get_alpha` from `src/alpha.rs`: asserts `rate > 0` and
`cutoff > 0` (the `assert_positive!` macro), then calls the unchecked form.
`none` models the panic. -/
def get_alpha (twoPi rate cutoff : α) : Option α :=
  if 0 < rate ∧ 0 < cutoff then some (get_alpha_unchecked twoPi rate cutoff)
  else none

/-- Embedding of `filter_unchecked` from `src/lowpass.rs`:
`current.component_mul(alpha) + previous.component_mul(&(alpha.neg().add_scalar(T::one())))`. -/
def filter_unchecked (current previous alpha : Fin D → α) : Fin D → α :=
  fun i => current i * alpha i + previous i * (-(alpha i) + 1)

/-- The `assert_alpha!` macro from `src/alpha.rs`: every component of
`alpha` must satisfy `0 < a` (`assert_positive!`) and `a ≤ 1`. -/
def alphaOk (alpha : Fin D → α) : Prop :=
  ∀ i, 0 < alpha i ∧ alpha i ≤ 1

instance (alpha : Fin D → α) : Decidable (alphaOk alpha) := by
  unfold alphaOk; infer_instance

/-- Embedding of the checked `filter` from `src/lowpass.rs`: runs
`assert_alpha!(alpha)` then delegates to `filter_unchecked`.  `none`
models the panic. -/
def filter (current previous alpha : Fin D → α) : Option (Fin D → α) :=
  if alphaOk alpha then some (filter_unchecked current previous alpha)
  else none

/-- Embedding of `LowPassState::update` from `src/lowpass.rs`: the state
is the stored vector; `update` replaces it with `filter(raw, state, alpha)`. -/
def LowPassState.update (state raw alpha : Fin D → α) : Option (Fin D → α) :=
  filter raw state alpha

/-- Embedding of `LowPassState::update_unchecked` from `src/lowpass.rs`. -/
def LowPassState.update_unchecked (state raw alpha : Fin D → α) : Fin D → α :=
  filter_unchecked raw state alpha

/-- Embedding of `OneEuroState` from `src/state.rs`: the raw last sample
and the two low-pass stage states (each a plain vector). -/
structure OneEuroState (α : Type) (D : Nat) where
  raw : Fin D → α
  filtered : Fin D → α
  derivate : Fin D → α
deriving DecidableEq

/-- Embedding of `OneEuroState::new`: `raw = filtered = state`,
`derivate = zeros()`. -/
def OneEuroState.new (state : Fin D → α) : OneEuroState α D :=
  { raw := state, filtered := state, derivate := fun _ => 0 }

/-- Embedding of `OneEuroState::get_cutoff`:
`self.derivate().abs().scale(slope).add_scalar(intercept)`. -/
def OneEuroState.get_cutoff (s : OneEuroState α D) (intercept slope : α) :
    Fin D → α :=
  fun i => |s.derivate i| * slope + intercept

/-- Embedding of the checked `OneEuroState::update` from `src/state.rs`.
The Rust body runs, in order:
1. `self.derivate.update(&(raw - &self.raw).scale(rate), alpha)` — the
   checked low-pass update, which asserts `alpha` before mutating;
2. `self.get_cutoff(mincutoff, beta).map(|v| get_alpha(rate, v))` — the
   checked alpha computation, which asserts `rate > 0` and each computed
   cutoff `> 0` (after the derivative stage was already mutated);
3. `self.filtered.update_unchecked(raw, &alpha)`;
4. `self.raw = raw`.
`Except.error` carries the state as of the panic. -/
def OneEuroState.update (twoPi : α) (s : OneEuroState α D)
    (raw alpha : Fin D → α) (rate mincutoff beta : α) :
    Except (OneEuroState α D) (OneEuroState α D) :=
  if alphaOk alpha then
    let s1 : OneEuroState α D :=
      ⟨s.raw, s.filtered,
       filter_unchecked (fun i => (raw i - s.raw i) * rate) s.derivate alpha⟩
    if 0 < rate ∧ ∀ i, 0 < s1.get_cutoff mincutoff beta i then
      Except.ok
        ⟨raw,
         filter_unchecked raw s1.filtered
           (fun i => get_alpha_unchecked twoPi rate (s1.get_cutoff mincutoff beta i)),
         s1.derivate⟩
    else Except.error s1
  else Except.error s

/-- Embedding of `OneEuroState::update_unchecked` from `src/state.rs`:
same arithmetic, no assertions. -/
def OneEuroState.update_unchecked (twoPi : α) (s : OneEuroState α D)
    (raw alpha : Fin D → α) (rate mincutoff beta : α) : OneEuroState α D :=
  let s1 : OneEuroState α D :=
    ⟨s.raw, s.filtered,
     filter_unchecked (fun i => (raw i - s.raw i) * rate) s.derivate alpha⟩
  ⟨raw,
   filter_unchecked raw s1.filtered
     (fun i => get_alpha_unchecked twoPi rate (s1.get_cutoff mincutoff beta i)),
   s1.derivate⟩

/-- Embedding of `OneEuroFilter` from `src/filter.rs`: the tunable
parameters plus the precomputed derivative-stage smoothing factor. -/
structure OneEuroFilter (α : Type) (D : Nat) where
  rate : α
  beta : α
  dcutoff : α
  mincutoff : α
  alpha : Fin D → α
deriving DecidableEq

/-- Embedding of the private static `OneEuroFilter::get_alpha`:
`SVector::repeat(cutoff).map(|v| get_alpha_unchecked(rate, v))`. -/
def OneEuroFilter.getAlphaVec (twoPi rate cutoff : α) : Fin D → α :=
  fun _ => get_alpha_unchecked twoPi rate cutoff

/-- Embedding of `OneEuroFilter::set_rate` from `src/filter.rs`: asserts
`value > 0`, stores it, then recomputes
`self.alpha = Self::get_alpha(self.rate(), self.mincutoff())`
(note: the source reads `mincutoff` here, not `dcutoff`). -/
def OneEuroFilter.set_rate (twoPi : α) (f : OneEuroFilter α D) (value : α) :
    Option (OneEuroFilter α D) :=
  if 0 < value then
    some { f with rate := value,
                  alpha := OneEuroFilter.getAlphaVec twoPi value f.mincutoff }
  else none

/-- Embedding of `OneEuroFilter::set_dcutoff` from `src/filter.rs`:
asserts `value > 0`, stores it, then recomputes
`self.alpha = Self::get_alpha(self.rate(), self.dcutoff())`. -/
def OneEuroFilter.set_dcutoff (twoPi : α) (f : OneEuroFilter α D) (value : α) :
    Option (OneEuroFilter α D) :=
  if 0 < value then
    some { f with dcutoff := value,
                  alpha := OneEuroFilter.getAlphaVec twoPi f.rate value }
  else none

/-- Embedding of `OneEuroFilter::set_mincutoff`: asserts `value > 0`,
stores it (no alpha recomputation). -/
def OneEuroFilter.set_mincutoff (f : OneEuroFilter α D) (value : α) :
    Option (OneEuroFilter α D) :=
  if 0 < value then some { f with mincutoff := value } else none

/-- Embedding of `OneEuroFilter::set_beta`: asserts `value ≥ 0`,
stores it. -/
def OneEuroFilter.set_beta (f : OneEuroFilter α D) (value : α) :
    Option (OneEuroFilter α D) :=
  if 0 ≤ value then some { f with beta := value } else none

/-- Embedding of `impl Default for OneEuroFilter` from `src/filter.rs`:
every one of `rate`, `dcutoff`, `mincutoff`, `beta` is `T::one()`, and
`alpha = Self::get_alpha(T::one(), T::one())`. -/
def OneEuroFilter.default (twoPi : α) : OneEuroFilter α D :=
  { rate := 1, beta := 1, dcutoff := 1, mincutoff := 1,
    alpha := OneEuroFilter.getAlphaVec twoPi 1 1 }

/-- Embedding of `OneEuroFilter::filter` from `src/filter.rs`: the
receiver is `&self` (immutable) and the state is `&mut`; the body is a
single call `state.update_unchecked(raw, self.alpha(), self.rate(),
self.mincutoff(), self.beta())`.  The pair returned is the
(filter, state) after the call. -/
def OneEuroFilter.filter (twoPi : α) (f : OneEuroFilter α D)
    (state : OneEuroState α D) (raw : Fin D → α) :
    OneEuroFilter α D × OneEuroState α D :=
  (f, state.update_unchecked twoPi raw f.alpha f.rate f.mincutoff f.beta)

/-! ## Theorems about the claims -/

/-- Claim C7: for every pair of same-dimension vectors and every alpha
vector, the low-pass primitive returns `current·alpha + previous·(1-alpha)`
component-wise, and the stateful wrapper's `update(sample, alpha)`
replaces its stored state with `filter(sample, state, alpha)`. -/
theorem lowpass_primitive_and_state_update
    (current previous alpha state sample : Fin D → α) :
    filter_unchecked current previous alpha
      = (fun i => current i * alpha i + previous i * (1 - alpha i)) ∧
    LowPassState.update state sample alpha = filter sample state alpha := by
  constructor
  · funext i
    show current i * alpha i + previous i * (-(alpha i) + 1)
        = current i * alpha i + previous i * (1 - alpha i)
    ring
  · rfl

/-- Claim C8: for every `rate > 0` and `cutoff > 0` the checked alpha
calculator returns `1 / (1 + rate / (twoPi * cutoff))`, and at
`rate = 1`, `cutoff = 1/twoPi` it returns `1/2`. -/
theorem get_alpha_formula (twoPi rate cutoff : α) (hp : 0 < twoPi)
    (hr : 0 < rate) (hc : 0 < cutoff) :
    get_alpha twoPi rate cutoff = some (1 / (1 + rate / (twoPi * cutoff))) ∧
    get_alpha twoPi 1 twoPi⁻¹ = some (1 / 2) := by
  constructor
  · simp [get_alpha, get_alpha_unchecked, hr, hc, one_div]
  · have h2 : (0:α) < twoPi⁻¹ := inv_pos.mpr hp
    simp [get_alpha, get_alpha_unchecked, h2,
      mul_inv_cancel₀ (ne_of_gt hp), one_div]
    norm_num

/-- Witness for claim C8 at `twoPi = 6`, `rate = 1`, `cutoff = 1/6`. -/
theorem get_alpha_formula_witness :
    get_alpha (6:ℚ) 1 6⁻¹ = some (1 / 2) :=
  (get_alpha_formula 6 1 6⁻¹ (by norm_num) (by norm_num) (by norm_num)).2

/-- Claim C6 counterexample: the checked low-pass `filter` rejects
`alpha = 0` (models a panic as `none`) instead of returning `previous`:
the accepted interval is (0, 1], not [0, 1]. -/
theorem lowpass_alpha_zero_rejected :
    filter (fun _ : Fin 1 => (2:ℚ)) (fun _ => 1) (fun _ => 0) = none := by
  have h : ¬ alphaOk (fun _ : Fin 1 => (0:ℚ)) :=
    fun h => absurd (h 0).1 (lt_irrefl 0)
  simp [filter, h]

/-- Claim C6 (amended): the checked low-pass filter accepts exactly the
alpha vectors whose every component lies in the half-open interval
(0, 1]; at `alpha = 1` it returns `current`. -/
theorem lowpass_filter_accepts_exactly_unit_interval
    (current previous alpha : Fin D → α) :
    ((∃ r, filter current previous alpha = some r)
        ↔ ∀ i, 0 < alpha i ∧ alpha i ≤ 1) ∧
    filter current previous (fun _ => 1) = some current := by
  refine ⟨⟨fun h => ?_, fun h => ?_⟩, ?_⟩
  · by_cases ha : alphaOk alpha
    · exact ha
    · obtain ⟨r, hr⟩ := h
      simp [filter, ha] at hr
  · exact ⟨filter_unchecked current previous alpha,
      by simp [filter, show alphaOk alpha from h]⟩
  · have h1 : alphaOk (fun _ : Fin D => (1:α)) := fun i => ⟨one_pos, le_refl 1⟩
    simp only [filter, if_pos h1]
    congr 1
    funext i
    show current i * 1 + previous i * (-1 + 1) = current i
    ring

/-- Claim C3 counterexample: the default-constructed filter has
`beta = 1`, not `beta = 0`. -/
theorem default_beta_is_not_zero :
    (OneEuroFilter.default (6:ℚ) : OneEuroFilter ℚ 1).beta ≠ 0 := by
  simp [OneEuroFilter.default]

/-- Claim C3 (amended): the default-constructed filter has
`rate = mincutoff = dcutoff = 1` and `beta = 1` (the source doc reads
"Each setable parameter is 1"). -/
theorem default_parameters (twoPi : α) :
    (OneEuroFilter.default twoPi : OneEuroFilter α D).rate = 1 ∧
    (OneEuroFilter.default twoPi : OneEuroFilter α D).mincutoff = 1 ∧
    (OneEuroFilter.default twoPi : OneEuroFilter α D).dcutoff = 1 ∧
    (OneEuroFilter.default twoPi : OneEuroFilter α D).beta = 1 :=
  ⟨rfl, rfl, rfl, rfl⟩

/-- Claim C2: after `set_dcutoff` the stored derivative alpha is
`alpha(rate, dcutoff)` as claimed, but `set_rate` recomputes it from
`mincutoff` instead of `dcutoff`: starting from rate 1, mincutoff 1,
dcutoff 2 (and `twoPi = 6`), `set_rate 1` stores `alpha(1, mincutoff) =
6/7` although `alpha(1, dcutoff) = 12/13`. -/
theorem set_rate_recomputes_alpha_from_mincutoff :
    (OneEuroFilter.set_rate (6:ℚ)
        { rate := 1, beta := 0, dcutoff := 2, mincutoff := 1,
          alpha := fun _ : Fin 1 => 12/13 } 1).map (fun f => f.alpha 0)
      = some (6/7)
    ∧ (OneEuroFilter.set_dcutoff (6:ℚ)
        { rate := 1, beta := 0, dcutoff := 1, mincutoff := 1,
          alpha := fun _ : Fin 1 => 6/7 } 2).map (fun f => f.alpha 0)
      = some (12/13)
    ∧ get_alpha_unchecked (6:ℚ) 1 2 = 12/13
    ∧ (6/7 : ℚ) ≠ 12/13 := by
  refine ⟨?_, ?_, ?_, by norm_num⟩
  · norm_num [OneEuroFilter.set_rate, OneEuroFilter.getAlphaVec,
      get_alpha_unchecked]
  · norm_num [OneEuroFilter.set_dcutoff, OneEuroFilter.getAlphaVec,
      get_alpha_unchecked]
  · norm_num [get_alpha_unchecked]

/-- Claim C10: `OneEuroFilter::filter` leaves every filter parameter
(rate, beta, dcutoff, mincutoff, stored derivative alpha) unchanged and
replaces the state with the unchecked state update under the filter's
current parameters. -/
theorem filter_call_preserves_parameters (twoPi : α) (f : OneEuroFilter α D)
    (s : OneEuroState α D) (raw : Fin D → α) :
    (OneEuroFilter.filter twoPi f s raw).1.rate = f.rate ∧
    (OneEuroFilter.filter twoPi f s raw).1.beta = f.beta ∧
    (OneEuroFilter.filter twoPi f s raw).1.dcutoff = f.dcutoff ∧
    (OneEuroFilter.filter twoPi f s raw).1.mincutoff = f.mincutoff ∧
    (OneEuroFilter.filter twoPi f s raw).1.alpha = f.alpha ∧
    (OneEuroFilter.filter twoPi f s raw).2
      = s.update_unchecked twoPi raw f.alpha f.rate f.mincutoff f.beta :=
  ⟨rfl, rfl, rfl, rfl, rfl, rfl⟩

/-- Helper: the alpha formula lands in (0, 1] for positive inputs. -/
theorem get_alpha_unchecked_mem_unit (twoPi rate cutoff : α)
    (hp : 0 < twoPi) (hr : 0 < rate) (hc : 0 < cutoff) :
    0 < get_alpha_unchecked twoPi rate cutoff ∧
    get_alpha_unchecked twoPi rate cutoff ≤ 1 := by
  have hx : 0 < rate / (twoPi * cutoff) := div_pos hr (mul_pos hp hc)
  constructor
  · exact inv_pos.mpr (by linarith)
  · exact inv_le_one_of_one_le₀ (by linarith)

/-- Claim C1: under the checked preconditions, one checked
`OneEuroState::update` replaces the derivative low-pass state by
`filter((sample - raw_prev)·rate, old_derivative, derivative_alpha)`,
forms `cutoff = mincutoff + beta·|new smoothed derivative|` per
dimension, forms `sample_alpha = 1/(1 + rate/(twoPi·cutoff))` per
dimension, replaces the filtered low-pass state by
`filter(sample, old_filtered, sample_alpha)`, and sets `raw` to the
sample. -/
theorem update_performs_spec_steps (twoPi rate mincutoff beta : α)
    (s : OneEuroState α D) (sample dalpha : Fin D → α)
    (ha : ∀ i, 0 < dalpha i ∧ dalpha i ≤ 1)
    (hr : 0 < rate)
    (hc : ∀ i, 0 < mincutoff + beta *
        |filter_unchecked (fun j => (sample j - s.raw j) * rate) s.derivate dalpha i|) :
    s.update twoPi sample dalpha rate mincutoff beta =
      Except.ok
        { raw := sample,
          filtered := filter_unchecked sample s.filtered
            (fun i => 1 / (1 + rate / (twoPi * (mincutoff + beta *
              |filter_unchecked (fun j => (sample j - s.raw j) * rate)
                s.derivate dalpha i|)))),
          derivate := filter_unchecked (fun j => (sample j - s.raw j) * rate)
            s.derivate dalpha } := by
  have hc' : ∀ i, 0 < OneEuroState.get_cutoff
      (⟨s.raw, s.filtered,
        filter_unchecked (fun j => (sample j - s.raw j) * rate) s.derivate dalpha⟩ :
        OneEuroState α D) mincutoff beta i := by
    intro i
    have h := hc i
    simp only [OneEuroState.get_cutoff]
    rw [mul_comm beta] at h
    linarith
  simp only [OneEuroState.update, if_pos (show alphaOk dalpha from ha)]
  rw [if_pos ⟨hr, hc'⟩]
  simp only [Except.ok.injEq, OneEuroState.mk.injEq]
  refine ⟨trivial, ?_, trivial⟩
  funext i
  simp only [filter_unchecked, OneEuroState.get_cutoff, get_alpha_unchecked,
    one_div]
  ring

/-- Witness for claim C1: with `twoPi = 6`, a one-dimensional state at 2,
a new sample 3, `derivative_alpha = 1`, `rate = 1`, `mincutoff = 1`,
`beta = 0`: new derivative 1, cutoff 1, sample alpha 6/7, filtered
`3·(6/7) + 2·(1/7) = 20/7`. -/
theorem update_performs_spec_steps_witness :
    OneEuroState.update (6:ℚ) (OneEuroState.new (fun _ : Fin 1 => 2))
      (fun _ => 3) (fun _ => 1) 1 1 0
      = Except.ok ⟨fun _ => 3, fun _ => 20/7, fun _ => 1⟩ := by
  rw [update_performs_spec_steps 6 1 1 0 (OneEuroState.new (fun _ : Fin 1 => 2))
      (fun _ => 3) (fun _ => 1) (fun i => ⟨one_pos, le_refl 1⟩) one_pos
      (by intro i; norm_num)]
  simp only [Except.ok.injEq, OneEuroState.mk.injEq]
  refine ⟨trivial, funext fun i => ?_, funext fun i => ?_⟩
  · norm_num [filter_unchecked, OneEuroState.new]
  · norm_num [filter_unchecked, OneEuroState.new]

/-- Claim C4 counterexample: the checked update with `mincutoff = 0` on a
fresh state (zero derivative, `beta = 0`) panics — the computed cutoff is
0 and `get_alpha`'s strict positivity assertion fires — although the
claim says it succeeds. -/
theorem update_mincutoff_zero_panics :
    OneEuroState.update (6:ℚ) (OneEuroState.new (fun _ : Fin 1 => 1))
      (fun _ => 1) (fun _ => 1) 1 0 0
      = Except.error (OneEuroState.new (fun _ : Fin 1 => 1)) := by
  norm_num [OneEuroState.update, OneEuroState.new, OneEuroState.get_cutoff,
    alphaOk, filter_unchecked, Fin.forall_fin_one]
  funext i
  norm_num [filter_unchecked]

/-- Claim C4 (amended): the checked update validates in layers, not up
front: it succeeds exactly when every derivative-alpha component is in
(0, 1], `rate > 0`, and every per-dimension cutoff computed from the new
derivative is strictly positive.  `beta` is never validated on its own:
a negative beta passes whenever the cutoffs stay positive, and
`mincutoff = 0` fails whenever some cutoff is 0. -/
theorem update_validation_characterization (twoPi : α)
    (s : OneEuroState α D) (sample dalpha : Fin D → α)
    (rate mincutoff beta : α) :
    (∃ s', s.update twoPi sample dalpha rate mincutoff beta = Except.ok s')
      ↔ (∀ i, 0 < dalpha i ∧ dalpha i ≤ 1) ∧ 0 < rate ∧
        ∀ i, 0 < OneEuroState.get_cutoff
          (⟨s.raw, s.filtered,
            filter_unchecked (fun j => (sample j - s.raw j) * rate)
              s.derivate dalpha⟩ : OneEuroState α D) mincutoff beta i := by
  constructor
  · rintro ⟨s', h⟩
    by_cases ha : alphaOk dalpha
    · simp only [OneEuroState.update, if_pos ha] at h
      split at h
      · rename_i hcnd
        exact ⟨ha, hcnd.1, hcnd.2⟩
      · simp at h
    · simp only [OneEuroState.update, if_neg ha] at h
      simp at h
  · rintro ⟨ha, hr, hc⟩
    refine ⟨⟨sample,
      filter_unchecked sample s.filtered
        (fun i => get_alpha_unchecked twoPi rate
          (OneEuroState.get_cutoff
            (⟨s.raw, s.filtered,
              filter_unchecked (fun j => (sample j - s.raw j) * rate)
                s.derivate dalpha⟩ : OneEuroState α D) mincutoff beta i)),
      filter_unchecked (fun j => (sample j - s.raw j) * rate)
        s.derivate dalpha⟩, ?_⟩
    simp only [OneEuroState.update, if_pos (show alphaOk dalpha from ha)]
    rw [if_pos ⟨hr, hc⟩]

/-- Claim C5 counterexample: the checked update with `rate = -1` fails
its validation (inside `get_alpha`), yet the state observed at the panic
has a modified derivative component (-1 instead of 0): the failed
validation did not leave all state unmodified. -/
theorem failed_update_modifies_derivative :
    OneEuroState.update (6:ℚ) (OneEuroState.new (fun _ : Fin 1 => 0))
      (fun _ => 1) (fun _ => 1) (-1) 1 0
      = Except.error ⟨fun _ => 0, fun _ => 0, fun _ => -1⟩
    ∧ (fun _ : Fin 1 => (-1:ℚ))
      ≠ (OneEuroState.new (fun _ : Fin 1 => (0:ℚ))).derivate := by
  constructor
  · norm_num [OneEuroState.update, OneEuroState.new, OneEuroState.get_cutoff,
      alphaOk, filter_unchecked, Fin.forall_fin_one]
    funext i
    norm_num [filter_unchecked]
  · intro h
    have h0 := congrFun h 0
    norm_num [OneEuroState.new] at h0

/-- Claim C5 (amended): when the checked update fails, `raw` and
`filtered` are unmodified; if the derivative-alpha validation is what
failed the whole state is unmodified, but if the later rate/cutoff
validation failed the derivative stage has already been updated. -/
theorem failed_update_frame (twoPi : α) (s e : OneEuroState α D)
    (sample dalpha : Fin D → α) (rate mincutoff beta : α)
    (h : s.update twoPi sample dalpha rate mincutoff beta = Except.error e) :
    e.raw = s.raw ∧ e.filtered = s.filtered ∧
    (¬ alphaOk dalpha → e = s) ∧
    (alphaOk dalpha → e.derivate
      = filter_unchecked (fun j => (sample j - s.raw j) * rate)
          s.derivate dalpha) := by
  by_cases ha : alphaOk dalpha
  · simp only [OneEuroState.update, if_pos ha] at h
    split at h
    · simp at h
    · rw [Except.error.injEq] at h
      subst h
      exact ⟨rfl, rfl, fun hna => absurd ha hna, fun _ => rfl⟩
  · simp only [OneEuroState.update, if_neg ha] at h
    rw [Except.error.injEq] at h
    subst h
    exact ⟨rfl, rfl, fun _ => rfl, fun hA => absurd hA ha⟩

/-- Witness for claim C5 (amended), at the `rate = -1` failing input. -/
theorem failed_update_frame_witness :
    (⟨fun _ => 0, fun _ => 0, fun _ => -1⟩ : OneEuroState ℚ 1).raw
        = (OneEuroState.new (fun _ : Fin 1 => (0:ℚ))).raw ∧
    (⟨fun _ => 0, fun _ => 0, fun _ => -1⟩ : OneEuroState ℚ 1).filtered
        = (OneEuroState.new (fun _ : Fin 1 => (0:ℚ))).filtered ∧
    (¬ alphaOk (fun _ : Fin 1 => (1:ℚ)) →
      (⟨fun _ => 0, fun _ => 0, fun _ => -1⟩ : OneEuroState ℚ 1)
        = OneEuroState.new (fun _ : Fin 1 => (0:ℚ))) ∧
    (alphaOk (fun _ : Fin 1 => (1:ℚ)) →
      (⟨fun _ => 0, fun _ => 0, fun _ => -1⟩ : OneEuroState ℚ 1).derivate
        = filter_unchecked
            (fun j => ((fun _ : Fin 1 => (1:ℚ)) j
              - (OneEuroState.new (fun _ : Fin 1 => (0:ℚ))).raw j) * (-1))
            (OneEuroState.new (fun _ : Fin 1 => (0:ℚ))).derivate
            (fun _ => 1)) :=
  failed_update_frame 6 (OneEuroState.new (fun _ : Fin 1 => (0:ℚ)))
    ⟨fun _ => 0, fun _ => 0, fun _ => -1⟩ (fun _ => 1) (fun _ => 1) (-1) 1 0
    (by
      norm_num [OneEuroState.update, OneEuroState.new,
        OneEuroState.get_cutoff, alphaOk, filter_unchecked, Fin.forall_fin_one]
      funext i
      norm_num [filter_unchecked])

/-- Claim C9: for every `rate > 0` and `cutoff > 0` the computed
smoothing factor lies in (0, 1]; consequently, whenever the checked
update succeeds, every per-dimension alpha it handed to the unchecked
signal-stage low-pass update lies in (0, 1], so the bypassed assertion
could never fire. -/
theorem computed_alpha_in_unit_interval (twoPi : α) (hp : 0 < twoPi) :
    (∀ rate cutoff : α, 0 < rate → 0 < cutoff →
        0 < get_alpha_unchecked twoPi rate cutoff ∧
        get_alpha_unchecked twoPi rate cutoff ≤ 1) ∧
    (∀ (s s' : OneEuroState α D) (sample dalpha : Fin D → α)
        (rate mincutoff beta : α),
      s.update twoPi sample dalpha rate mincutoff beta = Except.ok s' →
      ∀ i,
        0 < get_alpha_unchecked twoPi rate
            (OneEuroState.get_cutoff
              (⟨s.raw, s.filtered,
                filter_unchecked (fun j => (sample j - s.raw j) * rate)
                  s.derivate dalpha⟩ : OneEuroState α D) mincutoff beta i) ∧
        get_alpha_unchecked twoPi rate
            (OneEuroState.get_cutoff
              (⟨s.raw, s.filtered,
                filter_unchecked (fun j => (sample j - s.raw j) * rate)
                  s.derivate dalpha⟩ : OneEuroState α D) mincutoff beta i)
          ≤ 1) := by
  constructor
  · intro rate cutoff hr hc
    exact get_alpha_unchecked_mem_unit twoPi rate cutoff hp hr hc
  · intro s s' sample dalpha rate mincutoff beta h i
    by_cases ha : alphaOk dalpha
    · simp only [OneEuroState.update, if_pos ha] at h
      split at h
      · rename_i hcnd
        exact get_alpha_unchecked_mem_unit twoPi rate _ hp hcnd.1 (hcnd.2 i)
      · simp at h
    · simp only [OneEuroState.update, if_neg ha] at h
      simp at h

/-- Witness for claim C9 at `twoPi = 6`, `rate = 1`, `cutoff = 1`. -/
theorem computed_alpha_in_unit_interval_witness :
    0 < get_alpha_unchecked (6:ℚ) 1 1 ∧ get_alpha_unchecked (6:ℚ) 1 1 ≤ 1 :=
  (computed_alpha_in_unit_interval (D := 1) 6 (by norm_num)).1 1 1
    (by norm_num) (by norm_num)

end OneEuro
